import Mathlib

/-!
# Archestra Terraform provider: prompt resource and prompt data sources

A shallow embedding of `internal/provider/resource_archestra_prompt.go`,
`internal/provider/datasource_archestra_prompt.go` and
`internal/provider/datasource_archestra_prompt_versions.go`.

* Go strings are Lean strings; Go `int` status codes and version numbers are `Int`.
* The generated REST client is an interface of seven operations over an abstract
  remote state `σ`; every operation returns either a transport error or a typed
  response, together with the next remote state.
* Each provider method receives the response object it mutates in Go and returns
  the final response together with the world (remote state and the log of client
  calls issued so far).
-/

set_option autoImplicit false

namespace Archestra

/-! ## Terraform framework values -/

/-- Terraform `types.String`: null, unknown, or a known Go string. -/
inductive TfString where
  | null
  | unknown
  | value (v : String)
  deriving DecidableEq, Repr

/-- Framework constructor `types.StringValue`. -/
def TfString.StringValue (v : String) : TfString := TfString.value v

/-- Method `IsNull` of `types.String`. -/
def TfString.IsNull : TfString → Bool
  | TfString.null => true
  | _ => false

/-- Method `ValueString` of `types.String`: the known value, the empty string for null or unknown. -/
def TfString.ValueString : TfString → String
  | TfString.value v => v
  | _ => ""

/-- Method `ValueStringPointer` of `types.String`: nil for null, otherwise a pointer to the
stored value (the empty string for unknown). -/
def TfString.ValueStringPointer : TfString → Option String
  | TfString.null => none
  | TfString.unknown => some ""
  | TfString.value v => some v

/-- Terraform `types.Int64`. -/
inductive TfInt64 where
  | null
  | unknown
  | value (v : Int)
  deriving DecidableEq, Repr

/-- Framework constructor `types.Int64Value`. -/
def TfInt64.Int64Value (v : Int) : TfInt64 := TfInt64.value v

/-- Go conversion `int64(x)`: the value wrapped into the signed 64-bit range. -/
def int64 (x : Int) : Int := (x + 2 ^ 63) % 2 ^ 64 - 2 ^ 63

/-- Terraform `types.List` with elements of type `α`. -/
inductive TfList (α : Type) where
  | null
  | unknown
  | known (elems : List α)
  deriving DecidableEq, Repr

/-- Method `Elements` of `types.List`: the elements of a known list, none for null or unknown. -/
def TfList.Elements {α : Type} : TfList α → List α
  | TfList.known elems => elems
  | _ => []

/-- Framework `types.ListValueFrom` applied to a Go slice: a nil slice converts to the null
list, any other slice to the known list of its elements. The slice built by repeated `append`
onto a nil slice is nil exactly when nothing was appended. -/
def TfList.ListValueFrom {α : Type} : List α → TfList α
  | [] => TfList.null
  | x :: xs => TfList.known (x :: xs)

/-- Severity of a diagnostic. -/
inductive Severity where
  | error
  | warning
  deriving DecidableEq, Repr

/-- One framework diagnostic: severity, summary and detail. -/
structure Diagnostic where
  severity : Severity
  summary : String
  detail : String
  deriving DecidableEq, Repr

/-- Framework `diag.Diagnostics`. -/
abbrev diag.Diagnostics := List Diagnostic

/-- Method `HasError` of `diag.Diagnostics`. -/
def diag.Diagnostics.HasError (ds : diag.Diagnostics) : Bool :=
  ds.any (fun d => decide (d.severity = Severity.error))

/-- Method `Append` of `diag.Diagnostics`: a diagnostic already contained is skipped. -/
def diag.Diagnostics.Append (ds : diag.Diagnostics) (more : List Diagnostic) : diag.Diagnostics :=
  more.foldl (fun acc d => if d ∈ acc then acc else acc ++ [d]) ds

/-- Method `AddError` of `diag.Diagnostics`. -/
def diag.Diagnostics.AddError (ds : diag.Diagnostics) (summary detail : String) : diag.Diagnostics :=
  diag.Diagnostics.Append ds [Diagnostic.mk Severity.error summary detail]

/-- Methods `Get` of `tfsdk.Plan`, `tfsdk.State` and `tfsdk.Config`: the typed model of a value
that conforms to the schema; every attribute of the models here is a framework value type, so
the conversion reports no diagnostic. -/
def tfsdkGet {α : Type} (raw : α) : α × diag.Diagnostics := (raw, [])

/-- Method `Set` of `tfsdk.State`: the state becomes the given model. -/
def tfsdkSet {α : Type} (data : α) : Option α × diag.Diagnostics := (some data, [])

/-- The response object of a provider method: its diagnostics and its state (none: null). -/
structure Response (α : Type) where
  Diagnostics : diag.Diagnostics
  State : Option α
  deriving Repr

/-- The statement `resp.Diagnostics.AddError(summary, detail)`. -/
def Response.AddError {α : Type} (resp : Response α) (summary detail : String) : Response α :=
  Response.mk (diag.Diagnostics.AddError resp.Diagnostics summary detail) resp.State

/-- The statement `resp.Diagnostics.Append(ds...)`. -/
def Response.AppendDiags {α : Type} (resp : Response α) (ds : diag.Diagnostics) : Response α :=
  Response.mk (diag.Diagnostics.Append resp.Diagnostics ds) resp.State

/-- The statement `resp.Diagnostics.Append(resp.State.Set(ctx, &data)...)`. -/
def Response.SetState {α : Type} (resp : Response α) (data : α) : Response α :=
  Response.mk (diag.Diagnostics.Append resp.Diagnostics (tfsdkSet data).2) (tfsdkSet data).1

/-! ## The generated client -/

/-- The client's `types.UUID`, carried by its canonical text. -/
structure UUID where
  text : String
  deriving DecidableEq, Repr

/-- Method `String` of a UUID. -/
def UUID.toStr (u : UUID) : String := u.text

/-- The conversion `types.UUID(s)` the source applies to identifiers held in state. -/
def UUID.ofString (s : String) : UUID := UUID.mk s

/-- A timestamp of the client (`time.Time`), carried by the text its `String` method renders. -/
structure Time where
  text : String
  deriving DecidableEq, Repr

/-- Method `String` of a timestamp. -/
def Time.toStr (t : Time) : String := t.text

/-- A Go `error` value, carried by its message. -/
structure GoError where
  msg : String
  deriving DecidableEq, Repr

/-- Modelled from the spec: the client package's prompt record is not among the sources. The
fields are those of the Prompt entity of the data model: identifier, name, optional
description, content, tags and visibility. The provider reads `Id`, `Name` and `Content`. -/
structure Prompt where
  Id : UUID
  Name : String
  Content : String
  Description : Option String
  Tags : List String
  Visibility : Option String
  deriving DecidableEq, Repr

/-- Modelled from the spec: the client package's prompt version record is not among the
sources. The provider reads `Id`, `Version` and `CreatedAt`. -/
structure PromptVersion where
  Id : UUID
  Version : Int
  CreatedAt : Time
  deriving DecidableEq, Repr

/-- Request body of CreatePrompt. -/
structure CreatePromptJSONRequestBody where
  Name : String
  Content : String
  deriving DecidableEq, Repr

/-- Request body of UpdatePrompt: both fields are pointers. -/
structure UpdatePromptJSONRequestBody where
  Name : Option String
  Content : Option String
  deriving DecidableEq, Repr

/-- Request body of RollbackPrompt. -/
structure RollbackPromptJSONRequestBody where
  VersionId : UUID
  deriving DecidableEq, Repr

/-- Response of GetPrompt. -/
structure GetPromptResponse where
  StatusCode : Int
  JSON200 : Option Prompt
  deriving Repr

/-- Response of GetPrompts. -/
structure GetPromptsResponse where
  StatusCode : Int
  JSON200 : Option (List Prompt)
  deriving Repr

/-- Response of CreatePrompt. -/
structure CreatePromptResponse where
  StatusCode : Int
  JSON201 : Option Prompt
  deriving Repr

/-- Response of UpdatePrompt. -/
structure UpdatePromptResponse where
  StatusCode : Int
  JSON200 : Option Prompt
  deriving Repr

/-- Response of RollbackPrompt. -/
structure RollbackPromptResponse where
  StatusCode : Int
  JSON200 : Option Prompt
  deriving Repr

/-- Response of DeletePrompt. -/
structure DeletePromptResponse where
  StatusCode : Int
  deriving Repr

/-- Response of GetPromptVersions. -/
structure GetPromptVersionsResponse where
  StatusCode : Int
  JSON200 : Option (List PromptVersion)
  deriving Repr

/-- The interface of `client.ClientWithResponses` used by the provider, over a remote state
`σ`: each operation yields a transport error or a response, and the next remote state. -/
structure ClientWithResponses (σ : Type) where
  GetPromptWithResponse : UUID → σ → Except GoError GetPromptResponse × σ
  GetPromptsWithResponse : σ → Except GoError GetPromptsResponse × σ
  CreatePromptWithResponse : CreatePromptJSONRequestBody → σ → Except GoError CreatePromptResponse × σ
  UpdatePromptWithResponse :
    UUID → UpdatePromptJSONRequestBody → σ → Except GoError UpdatePromptResponse × σ
  RollbackPromptWithResponse :
    UUID → RollbackPromptJSONRequestBody → σ → Except GoError RollbackPromptResponse × σ
  DeletePromptWithResponse : String → σ → Except GoError DeletePromptResponse × σ
  GetPromptVersionsWithResponse : UUID → σ → Except GoError GetPromptVersionsResponse × σ

/-- One call issued to the remote service, with its arguments. -/
inductive Call where
  | GetPrompt (id : UUID)
  | GetPrompts
  | CreatePrompt (body : CreatePromptJSONRequestBody)
  | UpdatePrompt (id : UUID) (body : UpdatePromptJSONRequestBody)
  | RollbackPrompt (id : UUID) (body : RollbackPromptJSONRequestBody)
  | DeletePrompt (id : String)
  | GetPromptVersions (id : UUID)
  deriving DecidableEq, Repr

/-- The world a provider method runs in: the remote state and the calls issued so far. -/
structure World (σ : Type) where
  remote : σ
  calls : List Call

/-- Run one client operation in a world: the call is logged and the remote state advances. -/
def World.issue {σ ρ : Type} (w : World σ) (call : Call) (op : σ → Except GoError ρ × σ) :
    Except GoError ρ × World σ :=
  ((op w.remote).1, World.mk (op w.remote).2 (w.calls ++ [call]))

/-! ## The prompt resource -/

/-- The resource `ArchestraPromptResource`: it holds the client handle. -/
structure ArchestraPromptResource (σ : Type) where
  client : ClientWithResponses σ

/-- The resource model `ArchestraPromptResourceModel`. -/
structure ArchestraPromptResourceModel where
  ID : TfString
  Name : TfString
  Description : TfString
  Content : TfString
  Tags : TfList TfString
  Visibility : TfString
  VersionID : TfString
  deriving DecidableEq, Repr

/-- Request of Delete: the prior state. -/
structure DeleteRequest where
  State : ArchestraPromptResourceModel

/-- Method `Delete` of the resource. -/
def ArchestraPromptResource.Delete {σ : Type} (r : ArchestraPromptResource σ)
    (req : DeleteRequest) (resp : Response ArchestraPromptResourceModel) (w : World σ) :
    Response ArchestraPromptResourceModel × World σ :=
  let data := (tfsdkGet req.State).1
  let resp := resp.AppendDiags (tfsdkGet req.State).2
  if resp.Diagnostics.HasError then (resp, w)
  else
    match w.issue (Call.DeletePrompt data.ID.ValueString)
        (r.client.DeletePromptWithResponse data.ID.ValueString) with
    | (Except.error err, w1) =>
      (resp.AddError "API Error" ("Unable to delete prompt, got error: " ++ err.msg), w1)
    | (Except.ok deleteResp, w1) =>
      if deleteResp.StatusCode ≠ 204 then
        (resp.AddError "Unexpected API Response"
          ("Expected 204 No Content, got status " ++ toString deleteResp.StatusCode), w1)
      else (resp, w1)

/-- Request of Create: the plan. -/
structure CreateRequest where
  Plan : ArchestraPromptResourceModel

/-- Request of the resource Read: the prior state. -/
structure ReadRequest where
  State : ArchestraPromptResourceModel

/-- Request of Update: the plan. The source reads nothing else from the request. -/
structure UpdateRequest where
  Plan : ArchestraPromptResourceModel

/-- Method `Create` of the resource. -/
def ArchestraPromptResource.Create {σ : Type} (r : ArchestraPromptResource σ)
    (req : CreateRequest) (resp : Response ArchestraPromptResourceModel) (w : World σ) :
    Response ArchestraPromptResourceModel × World σ :=
  let data := (tfsdkGet req.Plan).1
  let resp := resp.AppendDiags (tfsdkGet req.Plan).2
  if resp.Diagnostics.HasError then (resp, w)
  else
    let createReq := CreatePromptJSONRequestBody.mk data.Name.ValueString data.Content.ValueString
    match w.issue (Call.CreatePrompt createReq) (r.client.CreatePromptWithResponse createReq) with
    | (Except.error err, w1) =>
      (resp.AddError "API Error" ("Unable to create prompt, got error: " ++ err.msg), w1)
    | (Except.ok createResp, w1) =>
      match createResp.JSON201 with
      | none =>
        (resp.AddError "Unexpected API Response"
          ("Expected 201 Created, got status " ++ toString createResp.StatusCode), w1)
      | some created =>
        (resp.SetState { data with ID := TfString.StringValue created.Id.toStr }, w1)

/-- Method `Read` of the resource. -/
def ArchestraPromptResource.Read {σ : Type} (r : ArchestraPromptResource σ)
    (req : ReadRequest) (resp : Response ArchestraPromptResourceModel) (w : World σ) :
    Response ArchestraPromptResourceModel × World σ :=
  let data := (tfsdkGet req.State).1
  let resp := resp.AppendDiags (tfsdkGet req.State).2
  if resp.Diagnostics.HasError then (resp, w)
  else
    match w.issue (Call.GetPrompt (UUID.ofString data.ID.ValueString))
        (r.client.GetPromptWithResponse (UUID.ofString data.ID.ValueString)) with
    | (Except.error err, w1) =>
      (resp.AddError "API Error" ("Unable to read prompt, got error: " ++ err.msg), w1)
    | (Except.ok getResp, w1) =>
      match getResp.JSON200 with
      | none =>
        (resp.AddError "Unexpected API Response"
          ("Expected 200 OK, got status " ++ toString getResp.StatusCode), w1)
      | some prompt =>
        (resp.SetState { data with
            Name := TfString.StringValue prompt.Name,
            Content := TfString.StringValue prompt.Content }, w1)

/-- The two branches of `Update` up to the shared final `State.Set`: the response to return
early on a failure (none when the branch ran to its end), and the world after the call. -/
def ArchestraPromptResource.updateBranch {σ : Type} (r : ArchestraPromptResource σ)
    (data : ArchestraPromptResourceModel) (resp : Response ArchestraPromptResourceModel)
    (w : World σ) : Option (Response ArchestraPromptResourceModel) × World σ :=
  if !data.VersionID.IsNull then
    let id := UUID.ofString data.ID.ValueString
    let body := RollbackPromptJSONRequestBody.mk (UUID.ofString data.VersionID.ValueString)
    match w.issue (Call.RollbackPrompt id body) (r.client.RollbackPromptWithResponse id body) with
    | (Except.error err, w1) =>
      (some (resp.AddError "API Error" ("Unable to rollback prompt, got error: " ++ err.msg)), w1)
    | (Except.ok rollbackResp, w1) =>
      if rollbackResp.StatusCode ≠ 200 then
        (some (resp.AddError "Unexpected API Response"
          ("Expected 200 OK, got status " ++ toString rollbackResp.StatusCode)), w1)
      else (none, w1)
  else
    let updateReq :=
      UpdatePromptJSONRequestBody.mk data.Name.ValueStringPointer data.Content.ValueStringPointer
    let id := UUID.ofString data.ID.ValueString
    match w.issue (Call.UpdatePrompt id updateReq)
        (r.client.UpdatePromptWithResponse id updateReq) with
    | (Except.error err, w1) =>
      (some (resp.AddError "API Error" ("Unable to update prompt, got error: " ++ err.msg)), w1)
    | (Except.ok updateResp, w1) =>
      if updateResp.StatusCode ≠ 200 then
        (some (resp.AddError "Unexpected API Response"
          ("Expected 200 OK, got status " ++ toString updateResp.StatusCode)), w1)
      else (none, w1)

/-- Method `Update` of the resource. -/
def ArchestraPromptResource.Update {σ : Type} (r : ArchestraPromptResource σ)
    (req : UpdateRequest) (resp : Response ArchestraPromptResourceModel) (w : World σ) :
    Response ArchestraPromptResourceModel × World σ :=
  let data := (tfsdkGet req.Plan).1
  let resp := resp.AppendDiags (tfsdkGet req.Plan).2
  if resp.Diagnostics.HasError then (resp, w)
  else
    match r.updateBranch data resp w with
    | (some early, w1) => (early, w1)
    | (none, w1) => (resp.SetState data, w1)

/-! ## The prompt data source -/

/-- The data source `ArchestraPromptDataSource`: it holds the client handle. -/
structure ArchestraPromptDataSource (σ : Type) where
  client : ClientWithResponses σ

/-- The data source model `ArchestraPromptDataSourceModel`. -/
structure ArchestraPromptDataSourceModel where
  ID : TfString
  Name : TfString
  Description : TfString
  Content : TfString
  Tags : TfList TfString
  Visibility : TfString
  deriving DecidableEq, Repr

/-- Request of the data source Read: the configuration. -/
structure DataSourceReadRequest where
  Config : ArchestraPromptDataSourceModel

/-- The struct the source asserts the value to: the unnamed struct with the fields `Id`,
`Name` and `Content`. -/
structure Placeholder where
  Id : UUID
  Name : String
  Content : String
  deriving DecidableEq, Repr

/-- The local `var prompt interface\x7b\x7d` of the data source Read, by its dynamic type: nil,
the pointer held by a GetPrompt response, an element of the slice held by a GetPrompts
response (a prompt record of the client), or a value of the unnamed placeholder struct. The
source assigns it only from the pointer and from a slice element. -/
inductive PromptValue where
  | nil
  | pointer (p : Prompt)
  | element (p : Prompt)
  | placeholder (p : Placeholder)
  deriving DecidableEq, Repr

/-- The type assertion of the value to the placeholder struct. As in Go, it succeeds exactly
when the dynamic type of the value is that unnamed three-field struct: nil, a pointer, and a
prompt record of the client (a type with further fields) are not values of it. -/
def PromptValue.assertPlaceholder : PromptValue → Option Placeholder
  | PromptValue.placeholder p => some p
  | _ => none

/-- The loop of the name branch: the first element whose name equals the wanted name, nil
when the slice has none. -/
def ArchestraPromptDataSource.scan (name : String) : List Prompt → PromptValue
  | [] => PromptValue.nil
  | p :: rest => if p.Name = name then PromptValue.element p
    else ArchestraPromptDataSource.scan name rest

/-- The lookup of the data source Read, up to the shared mapping to state: the response to
return early on a failure, or the value found; and the world after the call, if any. -/
def ArchestraPromptDataSource.lookup {σ : Type} (d : ArchestraPromptDataSource σ)
    (data : ArchestraPromptDataSourceModel) (resp : Response ArchestraPromptDataSourceModel)
    (w : World σ) : Except (Response ArchestraPromptDataSourceModel) PromptValue × World σ :=
  if !data.ID.IsNull then
    match w.issue (Call.GetPrompt (UUID.ofString data.ID.ValueString))
        (d.client.GetPromptWithResponse (UUID.ofString data.ID.ValueString)) with
    | (Except.error apiErr, w1) =>
      (Except.error
        (resp.AddError "API Error" ("Unable to read prompt, got error: " ++ apiErr.msg)), w1)
    | (Except.ok getResp, w1) =>
      match getResp.JSON200 with
      | none =>
        (Except.error (resp.AddError "Unexpected API Response"
          ("Expected 200 OK, got status " ++ toString getResp.StatusCode)), w1)
      | some p => (Except.ok (PromptValue.pointer p), w1)
  else if !data.Name.IsNull then
    match w.issue Call.GetPrompts d.client.GetPromptsWithResponse with
    | (Except.error apiErr, w1) =>
      (Except.error
        (resp.AddError "API Error" ("Unable to read prompts, got error: " ++ apiErr.msg)), w1)
    | (Except.ok promptsResp, w1) =>
      match promptsResp.JSON200 with
      | none =>
        (Except.error (resp.AddError "Unexpected API Response"
          ("Expected 200 OK, got status " ++ toString promptsResp.StatusCode)), w1)
      | some prompts =>
        match ArchestraPromptDataSource.scan data.Name.ValueString prompts with
        | PromptValue.nil =>
          (Except.error (resp.AddError "Not Found"
            ("Prompt with name '" ++ data.Name.ValueString ++ "' not found")), w1)
        | prompt => (Except.ok prompt, w1)
  else
    (Except.error
      (resp.AddError "Invalid Configuration" "Either 'id' or 'name' must be provided"), w)

/-- The mapping of the value found into the model: the three fields of the placeholder when
the assertion succeeds, nothing otherwise. -/
def ArchestraPromptDataSource.mapToState (data : ArchestraPromptDataSourceModel)
    (prompt : PromptValue) : ArchestraPromptDataSourceModel :=
  match prompt.assertPlaceholder with
  | some p => { data with
      ID := TfString.StringValue p.Id.toStr,
      Name := TfString.StringValue p.Name,
      Content := TfString.StringValue p.Content }
  | none => data

/-- Method `Read` of the prompt data source. -/
def ArchestraPromptDataSource.Read {σ : Type} (d : ArchestraPromptDataSource σ)
    (req : DataSourceReadRequest) (resp : Response ArchestraPromptDataSourceModel)
    (w : World σ) : Response ArchestraPromptDataSourceModel × World σ :=
  let data := (tfsdkGet req.Config).1
  let resp := resp.AppendDiags (tfsdkGet req.Config).2
  if resp.Diagnostics.HasError then (resp, w)
  else
    match d.lookup data resp w with
    | (Except.error early, w1) => (early, w1)
    | (Except.ok prompt, w1) =>
      (resp.SetState (ArchestraPromptDataSource.mapToState data prompt), w1)

/-! ## The prompt versions data source -/

/-- The data source `ArchestraPromptVersionsDataSource`: it holds the client handle. -/
structure ArchestraPromptVersionsDataSource (σ : Type) where
  client : ClientWithResponses σ

/-- One element of the versions list, `PromptVersionModel`. -/
structure PromptVersionModel where
  ID : TfString
  VersionNumber : TfInt64
  CreatedAt : TfString
  deriving DecidableEq, Repr

/-- The data source model `ArchestraPromptVersionsDataSourceModel`. -/
structure ArchestraPromptVersionsDataSourceModel where
  PromptID : TfString
  Versions : TfList PromptVersionModel
  deriving DecidableEq, Repr

/-- Request of the versions data source Read: the configuration. -/
structure VersionsReadRequest where
  Config : ArchestraPromptVersionsDataSourceModel

/-- The element appended for one returned version: identifier and timestamp rendered by their
`String` methods, the version number converted by `int64`. -/
def ArchestraPromptVersionsDataSource.versionModel (v : PromptVersion) : PromptVersionModel :=
  PromptVersionModel.mk (TfString.StringValue v.Id.toStr)
    (TfInt64.Int64Value (int64 v.Version)) (TfString.StringValue v.CreatedAt.toStr)

/-- The loop of the versions Read: one model appended per returned version, in order. -/
def ArchestraPromptVersionsDataSource.versionList (vs : List PromptVersion) :
    List PromptVersionModel :=
  vs.foldl (fun acc v => acc ++ [ArchestraPromptVersionsDataSource.versionModel v]) []

/-- Method `Read` of the prompt versions data source. -/
def ArchestraPromptVersionsDataSource.Read {σ : Type} (d : ArchestraPromptVersionsDataSource σ)
    (req : VersionsReadRequest) (resp : Response ArchestraPromptVersionsDataSourceModel)
    (w : World σ) : Response ArchestraPromptVersionsDataSourceModel × World σ :=
  let data := (tfsdkGet req.Config).1
  let resp := resp.AppendDiags (tfsdkGet req.Config).2
  if resp.Diagnostics.HasError then (resp, w)
  else
    match w.issue (Call.GetPromptVersions (UUID.ofString data.PromptID.ValueString))
        (d.client.GetPromptVersionsWithResponse (UUID.ofString data.PromptID.ValueString)) with
    | (Except.error err, w1) =>
      (resp.AddError "API Error" ("Unable to read prompt versions, got error: " ++ err.msg), w1)
    | (Except.ok versionsResp, w1) =>
      match versionsResp.JSON200 with
      | none =>
        (resp.AddError "Unexpected API Response"
          ("Expected 200 OK, got status " ++ toString versionsResp.StatusCode), w1)
      | some vs =>
        (resp.SetState { data with
          Versions := TfList.ListValueFrom
            (ArchestraPromptVersionsDataSource.versionList vs) }, w1)

/-! ## A reference remote service -/

/-- Modelled from the spec: a recorded version of a prompt in the remote service, an immutable
snapshot of the content of a prompt: the version record the client returns, the prompt it
belongs to and the content it recorded. -/
structure StoredVersion where
  Id : UUID
  PromptId : UUID
  Version : Int
  CreatedAt : Time
  Content : String
  deriving DecidableEq, Repr

/-- Modelled from the spec: the remote service is not part of the sources. A store of prompts
and of their recorded versions: create records the name and content of the request under a
fresh identifier and answers 201; get answers 200 with the stored prompt; rollback replaces
the content of the prompt by the recorded content of the named version and answers 200. -/
structure Store where
  prompts : List Prompt
  versions : List StoredVersion
  deriving DecidableEq, Repr

/-- An identifier longer than every identifier in use, hence fresh. -/
def Store.freshId (used : List UUID) : UUID :=
  UUID.mk (String.mk (List.replicate ((used.map (fun u => u.text.length)).foldr max 0 + 1) 'p'))

/-- The stored prompt with the given identifier. -/
def Store.findPrompt (s : Store) (id : UUID) : Option Prompt :=
  s.prompts.find? (fun p => decide (p.Id = id))

/-- The recorded version with the given identifier of the given prompt. -/
def Store.findVersion (s : Store) (id versionId : UUID) : Option StoredVersion :=
  s.versions.find? (fun v => decide (v.Id = versionId ∧ v.PromptId = id))

/-- Replace the stored prompt with the given identifier by its image under `f`. -/
def Store.modifyPrompt (s : Store) (id : UUID) (f : Prompt → Prompt) : Store :=
  Store.mk (s.prompts.map (fun p => if p.Id = id then f p else p)) s.versions

/-- Store operation GetPrompt. -/
def Store.getPrompt (id : UUID) (s : Store) : Except GoError GetPromptResponse × Store :=
  match s.findPrompt id with
  | some p => (Except.ok (GetPromptResponse.mk 200 (some p)), s)
  | none => (Except.ok (GetPromptResponse.mk 404 none), s)

/-- Store operation GetPrompts. -/
def Store.getPrompts (s : Store) : Except GoError GetPromptsResponse × Store :=
  (Except.ok (GetPromptsResponse.mk 200 (some s.prompts)), s)

/-- Store operation CreatePrompt. -/
def Store.createPrompt (body : CreatePromptJSONRequestBody) (s : Store) :
    Except GoError CreatePromptResponse × Store :=
  let p := Prompt.mk (Store.freshId (s.prompts.map (fun q => q.Id))) body.Name body.Content
    none [] none
  (Except.ok (CreatePromptResponse.mk 201 (some p)), Store.mk (s.prompts ++ [p]) s.versions)

/-- The partial update of a prompt: a field whose pointer is nil is left as it is. -/
def Store.applyUpdate (body : UpdatePromptJSONRequestBody) (p : Prompt) : Prompt :=
  { p with Name := body.Name.getD p.Name, Content := body.Content.getD p.Content }

/-- Store operation UpdatePrompt. -/
def Store.updatePrompt (id : UUID) (body : UpdatePromptJSONRequestBody) (s : Store) :
    Except GoError UpdatePromptResponse × Store :=
  match s.findPrompt id with
  | some p =>
    (Except.ok (UpdatePromptResponse.mk 200 (some (Store.applyUpdate body p))),
      s.modifyPrompt id (Store.applyUpdate body))
  | none => (Except.ok (UpdatePromptResponse.mk 404 none), s)

/-- Store operation RollbackPrompt. -/
def Store.rollbackPrompt (id : UUID) (body : RollbackPromptJSONRequestBody) (s : Store) :
    Except GoError RollbackPromptResponse × Store :=
  match s.findPrompt id, s.findVersion id body.VersionId with
  | some p, some v =>
    (Except.ok (RollbackPromptResponse.mk 200 (some { p with Content := v.Content })),
      s.modifyPrompt id (fun q => { q with Content := v.Content }))
  | _, _ => (Except.ok (RollbackPromptResponse.mk 404 none), s)

/-- Store operation DeletePrompt. -/
def Store.deletePrompt (id : String) (s : Store) : Except GoError DeletePromptResponse × Store :=
  match s.findPrompt (UUID.ofString id) with
  | some _ =>
    (Except.ok (DeletePromptResponse.mk 204),
      Store.mk (s.prompts.filter (fun p => decide (p.Id ≠ UUID.ofString id))) s.versions)
  | none => (Except.ok (DeletePromptResponse.mk 404), s)

/-- Store operation GetPromptVersions. -/
def Store.getPromptVersions (id : UUID) (s : Store) :
    Except GoError GetPromptVersionsResponse × Store :=
  (Except.ok (GetPromptVersionsResponse.mk 200
    (some ((s.versions.filter (fun v => decide (v.PromptId = id))).map
      (fun v => PromptVersion.mk v.Id v.Version v.CreatedAt)))), s)

/-- The client whose remote is the reference store. -/
def storeClient : ClientWithResponses Store :=
  ClientWithResponses.mk Store.getPrompt Store.getPrompts Store.createPrompt Store.updatePrompt
    Store.rollbackPrompt Store.deletePrompt Store.getPromptVersions

/-- A remote that acknowledges every request without keeping anything: create answers 201
with the identifier "7c1e", every other operation answers its expected status. -/
def ackClient : ClientWithResponses Unit :=
  ClientWithResponses.mk
    (fun id u => (Except.ok (GetPromptResponse.mk 200 (some (Prompt.mk id "" "" none [] none))), u))
    (fun u => (Except.ok (GetPromptsResponse.mk 200 (some [])), u))
    (fun body u => (Except.ok (CreatePromptResponse.mk 201
      (some (Prompt.mk (UUID.mk "7c1e") body.Name body.Content none [] none))), u))
    (fun _ _ u => (Except.ok (UpdatePromptResponse.mk 200 none), u))
    (fun _ _ u => (Except.ok (RollbackPromptResponse.mk 200 none), u))
    (fun _ u => (Except.ok (DeletePromptResponse.mk 204), u))
    (fun _ u => (Except.ok (GetPromptVersionsResponse.mk 200 (some [])), u))

/-! ## Concrete plans, configurations and stores -/

/-- The plan of the first step of the acceptance test: the identifier is not known yet. -/
def testPlan : ArchestraPromptResourceModel :=
  ArchestraPromptResourceModel.mk TfString.unknown (TfString.value "test-prompt")
    (TfString.value "A test prompt") (TfString.value "Test content") TfList.null TfString.null
    TfString.null

/-- The plan of the second step of the acceptance test, carrying the given identifier. -/
def updatedPlan (id : TfString) : ArchestraPromptResourceModel :=
  ArchestraPromptResourceModel.mk id (TfString.value "updated-prompt")
    (TfString.value "Updated description") (TfString.value "Test content") TfList.null
    TfString.null TfString.null

/-- A store holding one prompt with two recorded versions. -/
def exampleStore : Store :=
  Store.mk
    [Prompt.mk (UUID.mk "p1") "greeting" "second text" (some "Greets the user") ["chat"]
      (some "private")]
    [StoredVersion.mk (UUID.mk "v2") (UUID.mk "p1") 2 (Time.mk "2024-02-01 10:00:00 +0000 UTC")
        "second text",
      StoredVersion.mk (UUID.mk "v1") (UUID.mk "p1") 1 (Time.mk "2024-01-01 10:00:00 +0000 UTC")
        "first text"]

/-- A plan that asks for a rollback of prompt "p1" to version "v1" and also sets a new name and
new content. -/
def rollbackPlan : ArchestraPromptResourceModel :=
  ArchestraPromptResourceModel.mk (TfString.value "p1") (TfString.value "renamed")
    (TfString.value "Greets the user") (TfString.value "third text") TfList.null TfString.null
    (TfString.value "v1")

/-- A prior state that carries the identifier "ppp" with a name and content that are not
those of the remote record. -/
def stalePrior : ArchestraPromptResourceModel :=
  ArchestraPromptResourceModel.mk (TfString.value "ppp") (TfString.value "stale name")
    (TfString.value "A test prompt") (TfString.value "stale content") TfList.null TfString.null
    TfString.null

/-- A data source configuration that names a prompt and leaves everything else null. -/
def configByName (name : String) : ArchestraPromptDataSourceModel :=
  ArchestraPromptDataSourceModel.mk TfString.null (TfString.value name) TfString.null
    TfString.null TfList.null TfString.null

/-- The prompt resource over the reference store. -/
def storeResource : ArchestraPromptResource Store := ArchestraPromptResource.mk storeClient

/-- The prompt data source over the reference store. -/
def storeDataSource : ArchestraPromptDataSource Store := ArchestraPromptDataSource.mk storeClient

/-- The prompt versions data source over the reference store. -/
def storeVersionsDataSource : ArchestraPromptVersionsDataSource Store :=
  ArchestraPromptVersionsDataSource.mk storeClient

/-- The prompt resource over the acknowledging remote. -/
def ackResource : ArchestraPromptResource Unit := ArchestraPromptResource.mk ackClient

/-! ## Basic facts about diagnostics and responses -/

@[simp]
theorem Append_nil (ds : diag.Diagnostics) : diag.Diagnostics.Append ds [] = ds := rfl

@[simp]
theorem AddError_nil (summary detail : String) :
    diag.Diagnostics.AddError [] summary detail = [Diagnostic.mk Severity.error summary detail] := by
  simp [diag.Diagnostics.AddError, diag.Diagnostics.Append]

@[simp]
theorem HasError_nil : diag.Diagnostics.HasError [] = false := rfl

@[simp]
theorem HasError_error (summary detail : String) :
    diag.Diagnostics.HasError [Diagnostic.mk Severity.error summary detail] = true := by
  simp [diag.Diagnostics.HasError]

/-! ## Resource Delete -/

/-- C8. Delete issues the single DeletePrompt call with the identifier of the state; it ends
without an error diagnostic exactly when that call returned no transport error and status 204
(then it adds no diagnostic at all); a transport error gives exactly the one "API Error"
diagnostic and any other status code exactly the one "Unexpected API Response" diagnostic. -/
theorem delete_ok_iff_status_204 {σ : Type} (r : ArchestraPromptResource σ)
    (st : ArchestraPromptResourceModel) (st0 : Option ArchestraPromptResourceModel)
    (w : World σ) :
    (r.Delete ⟨st⟩ ⟨[], st0⟩ w).2.calls = w.calls ++ [Call.DeletePrompt st.ID.ValueString] ∧
    ((r.Delete ⟨st⟩ ⟨[], st0⟩ w).1.Diagnostics.HasError = false ↔
      ∃ resp, (r.client.DeletePromptWithResponse st.ID.ValueString w.remote).1 = Except.ok resp
        ∧ resp.StatusCode = 204) ∧
    (∀ resp, (r.client.DeletePromptWithResponse st.ID.ValueString w.remote).1 = Except.ok resp →
      resp.StatusCode = 204 → (r.Delete ⟨st⟩ ⟨[], st0⟩ w).1.Diagnostics = []) ∧
    (∀ err, (r.client.DeletePromptWithResponse st.ID.ValueString w.remote).1 = Except.error err →
      (r.Delete ⟨st⟩ ⟨[], st0⟩ w).1.Diagnostics =
        [Diagnostic.mk Severity.error "API Error"
          ("Unable to delete prompt, got error: " ++ err.msg)]) ∧
    (∀ resp, (r.client.DeletePromptWithResponse st.ID.ValueString w.remote).1 = Except.ok resp →
      resp.StatusCode ≠ 204 →
      (r.Delete ⟨st⟩ ⟨[], st0⟩ w).1.Diagnostics =
        [Diagnostic.mk Severity.error "Unexpected API Response"
          ("Expected 204 No Content, got status " ++ toString resp.StatusCode)]) := by
  cases h : (r.client.DeletePromptWithResponse st.ID.ValueString w.remote).1 with
  | error err =>
    simp [ArchestraPromptResource.Delete, tfsdkGet, Response.AppendDiags, Response.AddError,
      World.issue, h]
  | ok resp =>
    by_cases hs : resp.StatusCode = 204 <;>
    simp [ArchestraPromptResource.Delete, tfsdkGet, Response.AppendDiags, Response.AddError,
      World.issue, h, hs]

/-- Witness of the Delete rule on the example store: deleting the stored prompt "p1" answers
204 and Delete ends without an error diagnostic; deleting a prompt that is not stored answers
404 and Delete ends with the one "Unexpected API Response" diagnostic. -/
theorem delete_ok_iff_status_204_witness :
    (storeResource.Delete ⟨rollbackPlan⟩ ⟨[], none⟩ ⟨exampleStore, []⟩).1.Diagnostics = [] ∧
    (storeResource.Delete ⟨testPlan⟩ ⟨[], none⟩ ⟨exampleStore, []⟩).1.Diagnostics =
      [Diagnostic.mk Severity.error "Unexpected API Response"
        ("Expected 204 No Content, got status " ++ toString (404 : Int))] :=
  ⟨(delete_ok_iff_status_204 storeResource rollbackPlan none ⟨exampleStore, []⟩).2.2.1
      (DeletePromptResponse.mk 204) rfl rfl,
    (delete_ok_iff_status_204 storeResource testPlan none ⟨exampleStore, []⟩).2.2.2.2
      (DeletePromptResponse.mk 404) rfl (by decide)⟩

/-! ## Resource Update -/

/-- An Update that ends without an error diagnostic has written exactly its plan as state. -/
theorem update_success_writes_plan {σ : Type} (r : ArchestraPromptResource σ)
    (plan : ArchestraPromptResourceModel) (st0 : Option ArchestraPromptResourceModel)
    (w : World σ)
    (hok : (r.Update ⟨plan⟩ ⟨[], st0⟩ w).1.Diagnostics.HasError = false) :
    (r.Update ⟨plan⟩ ⟨[], st0⟩ w).1.Diagnostics = [] ∧
    (r.Update ⟨plan⟩ ⟨[], st0⟩ w).1.State = some plan := by
  revert hok
  by_cases hv : plan.VersionID.IsNull = true
  · cases h : (r.client.UpdatePromptWithResponse (UUID.ofString plan.ID.ValueString)
        (UpdatePromptJSONRequestBody.mk plan.Name.ValueStringPointer
          plan.Content.ValueStringPointer) w.remote).1 with
    | error err =>
      simp [ArchestraPromptResource.Update, ArchestraPromptResource.updateBranch, tfsdkGet,
        tfsdkSet, Response.AppendDiags, Response.AddError, Response.SetState, World.issue, h, hv]
    | ok resp =>
      by_cases hs : resp.StatusCode = 200 <;>
      simp [ArchestraPromptResource.Update, ArchestraPromptResource.updateBranch, tfsdkGet,
        tfsdkSet, Response.AppendDiags, Response.AddError, Response.SetState, World.issue, h, hv,
        hs]
  · cases h : (r.client.RollbackPromptWithResponse (UUID.ofString plan.ID.ValueString)
        (RollbackPromptJSONRequestBody.mk (UUID.ofString plan.VersionID.ValueString))
        w.remote).1 with
    | error err =>
      simp [ArchestraPromptResource.Update, ArchestraPromptResource.updateBranch, tfsdkGet,
        tfsdkSet, Response.AppendDiags, Response.AddError, Response.SetState, World.issue, h, hv]
    | ok resp =>
      by_cases hs : resp.StatusCode = 200 <;>
      simp [ArchestraPromptResource.Update, ArchestraPromptResource.updateBranch, tfsdkGet,
        tfsdkSet, Response.AppendDiags, Response.AddError, Response.SetState, World.issue, h, hv,
        hs]

/-- With version_id set, the calls Update issues are the one RollbackPrompt call. -/
theorem update_calls_rollback {σ : Type} (r : ArchestraPromptResource σ)
    (plan : ArchestraPromptResourceModel) (st0 : Option ArchestraPromptResourceModel)
    (w : World σ) (hv : plan.VersionID.IsNull = false) :
    (r.Update ⟨plan⟩ ⟨[], st0⟩ w).2.calls = w.calls ++
      [Call.RollbackPrompt (UUID.ofString plan.ID.ValueString)
        (RollbackPromptJSONRequestBody.mk (UUID.ofString plan.VersionID.ValueString))] := by
  cases h : (r.client.RollbackPromptWithResponse (UUID.ofString plan.ID.ValueString)
      (RollbackPromptJSONRequestBody.mk (UUID.ofString plan.VersionID.ValueString))
      w.remote).1 with
  | error err =>
    simp [ArchestraPromptResource.Update, ArchestraPromptResource.updateBranch, tfsdkGet,
      Response.AppendDiags, World.issue, h, hv]
  | ok resp =>
    by_cases hs : resp.StatusCode = 200 <;>
    simp [ArchestraPromptResource.Update, ArchestraPromptResource.updateBranch, tfsdkGet,
      Response.AppendDiags, World.issue, h, hv, hs]

/-- With version_id null, the calls Update issues are the one UpdatePrompt call. -/
theorem update_calls_field_update {σ : Type} (r : ArchestraPromptResource σ)
    (plan : ArchestraPromptResourceModel) (st0 : Option ArchestraPromptResourceModel)
    (w : World σ) (hv : plan.VersionID.IsNull = true) :
    (r.Update ⟨plan⟩ ⟨[], st0⟩ w).2.calls = w.calls ++
      [Call.UpdatePrompt (UUID.ofString plan.ID.ValueString)
        (UpdatePromptJSONRequestBody.mk plan.Name.ValueStringPointer
          plan.Content.ValueStringPointer)] := by
  cases h : (r.client.UpdatePromptWithResponse (UUID.ofString plan.ID.ValueString)
      (UpdatePromptJSONRequestBody.mk plan.Name.ValueStringPointer
        plan.Content.ValueStringPointer) w.remote).1 with
  | error err =>
    simp [ArchestraPromptResource.Update, ArchestraPromptResource.updateBranch, tfsdkGet,
      Response.AppendDiags, World.issue, h, hv]
  | ok resp =>
    by_cases hs : resp.StatusCode = 200 <;>
    simp [ArchestraPromptResource.Update, ArchestraPromptResource.updateBranch, tfsdkGet,
      Response.AppendDiags, World.issue, h, hv, hs]

/-- C1. Rollback takes precedence: when the plan's version_id is not null, the calls Update
issues are exactly one RollbackPrompt call, with the plan's id and version_id, whatever the
other fields of the plan are, and no UpdatePrompt call; when it is null they are exactly one
UpdatePrompt call, with the plan's id and carrying the plan's name and content, and no
RollbackPrompt call. -/
theorem update_rollback_precedence {σ : Type} (r : ArchestraPromptResource σ)
    (plan : ArchestraPromptResourceModel) (st0 : Option ArchestraPromptResourceModel)
    (w : World σ) :
    (plan.VersionID.IsNull = false →
      (r.Update ⟨plan⟩ ⟨[], st0⟩ w).2.calls = w.calls ++
        [Call.RollbackPrompt (UUID.ofString plan.ID.ValueString)
          (RollbackPromptJSONRequestBody.mk (UUID.ofString plan.VersionID.ValueString))]) ∧
    (plan.VersionID.IsNull = true →
      (r.Update ⟨plan⟩ ⟨[], st0⟩ w).2.calls = w.calls ++
        [Call.UpdatePrompt (UUID.ofString plan.ID.ValueString)
          (UpdatePromptJSONRequestBody.mk plan.Name.ValueStringPointer
            plan.Content.ValueStringPointer)]) :=
  ⟨update_calls_rollback r plan st0 w, update_calls_field_update r plan st0 w⟩

/-- Witness of the precedence rule on the example store: the rollback plan, which also sets a
new name and new content, issues the one RollbackPrompt call for prompt "p1" and version
"v1"; the plan without version_id issues the one UpdatePrompt call. -/
theorem update_rollback_precedence_witness :
    (storeResource.Update ⟨rollbackPlan⟩ ⟨[], none⟩ ⟨exampleStore, []⟩).2.calls = [] ++
      [Call.RollbackPrompt (UUID.ofString rollbackPlan.ID.ValueString)
        (RollbackPromptJSONRequestBody.mk (UUID.ofString rollbackPlan.VersionID.ValueString))] ∧
    (storeResource.Update ⟨updatedPlan (TfString.value "p1")⟩ ⟨[], none⟩
        ⟨exampleStore, []⟩).2.calls = [] ++
      [Call.UpdatePrompt (UUID.ofString (updatedPlan (TfString.value "p1")).ID.ValueString)
        (UpdatePromptJSONRequestBody.mk
          (updatedPlan (TfString.value "p1")).Name.ValueStringPointer
          (updatedPlan (TfString.value "p1")).Content.ValueStringPointer)] :=
  ⟨(update_rollback_precedence storeResource rollbackPlan none ⟨exampleStore, []⟩).1
      (by decide),
    (update_rollback_precedence storeResource (updatedPlan (TfString.value "p1")) none
      ⟨exampleStore, []⟩).2 (by decide)⟩

/-- C10, as the code behaves: a successful Update whose plan has version_id set writes the
plan as state, so the state carries the plan's version_id, which is not null. -/
theorem update_persists_version_id {σ : Type} (r : ArchestraPromptResource σ)
    (plan : ArchestraPromptResourceModel) (st0 : Option ArchestraPromptResourceModel)
    (w : World σ) (hv : plan.VersionID.IsNull = false)
    (hok : (r.Update ⟨plan⟩ ⟨[], st0⟩ w).1.Diagnostics.HasError = false) :
    ∃ st, (r.Update ⟨plan⟩ ⟨[], st0⟩ w).1.State = some st ∧
      st.VersionID = plan.VersionID ∧ st.VersionID ≠ TfString.null := by
  refine ⟨plan, (update_success_writes_plan r plan st0 w hok).2, rfl, ?_⟩
  intro hnull
  simp [hnull, TfString.IsNull] at hv

/-- Witness of `update_persists_version_id`: the rollback plan on the reference store. -/
theorem update_persists_version_id_witness :
    ∃ st, (storeResource.Update ⟨rollbackPlan⟩ ⟨[], none⟩ ⟨exampleStore, []⟩).1.State = some st ∧
      st.VersionID = rollbackPlan.VersionID ∧ st.VersionID ≠ TfString.null :=
  update_persists_version_id storeResource rollbackPlan none ⟨exampleStore, []⟩
    (by decide) (by decide)

/-- C10 as stated fails: the rollback of prompt "p1" to version "v1" on the reference store
succeeds, and the state Update writes has version_id "v1", not null. -/
theorem update_version_id_not_cleared :
    rollbackPlan.VersionID.IsNull = false ∧
    (storeResource.Update ⟨rollbackPlan⟩ ⟨[], none⟩ ⟨exampleStore, []⟩).1.Diagnostics = [] ∧
    ((storeResource.Update ⟨rollbackPlan⟩ ⟨[], none⟩ ⟨exampleStore, []⟩).1.State.map
      (fun st => st.VersionID)) = some (TfString.value "v1") ∧
    ((storeResource.Update ⟨rollbackPlan⟩ ⟨[], none⟩ ⟨exampleStore, []⟩).1.State.map
      (fun st => st.VersionID)) ≠ some TfString.null := by
  decide

/-- C4. The code at the second step of the acceptance test. The id attribute is computed and
the plan of an update does not fix it, so the plan's id is unknown; Update takes the
identifier from the plan only. On the reference store, Create of the test plan succeeds with
id "p"; the Update then issues UpdatePrompt for the empty identifier instead of "p", the store
answers 404, Update ends with an error, the state keeps the old name and the remote prompt is
not renamed. On a remote that acknowledges every request, the same Update succeeds and writes
an unknown id instead of the id "7c1e" of the state after Create. -/
theorem update_unknown_id_misses_created_prompt :
    ((storeResource.Create ⟨testPlan⟩ ⟨[], none⟩ ⟨Store.mk [] [], []⟩).1.Diagnostics = [] ∧
      (storeResource.Create ⟨testPlan⟩ ⟨[], none⟩ ⟨Store.mk [] [], []⟩).1.State =
        some { testPlan with ID := TfString.value "p" } ∧
      (storeResource.Update ⟨updatedPlan TfString.unknown⟩
        ⟨[], some { testPlan with ID := TfString.value "p" }⟩
        (storeResource.Create ⟨testPlan⟩ ⟨[], none⟩ ⟨Store.mk [] [], []⟩).2).2.calls =
        [Call.CreatePrompt (CreatePromptJSONRequestBody.mk "test-prompt" "Test content"),
          Call.UpdatePrompt (UUID.mk "")
            (UpdatePromptJSONRequestBody.mk (some "updated-prompt") (some "Test content"))] ∧
      (storeResource.Update ⟨updatedPlan TfString.unknown⟩
        ⟨[], some { testPlan with ID := TfString.value "p" }⟩
        (storeResource.Create ⟨testPlan⟩ ⟨[], none⟩ ⟨Store.mk [] [], []⟩).2).1.Diagnostics =
        [Diagnostic.mk Severity.error "Unexpected API Response"
          "Expected 200 OK, got status 404"] ∧
      (storeResource.Update ⟨updatedPlan TfString.unknown⟩
        ⟨[], some { testPlan with ID := TfString.value "p" }⟩
        (storeResource.Create ⟨testPlan⟩ ⟨[], none⟩ ⟨Store.mk [] [], []⟩).2).1.State =
        some { testPlan with ID := TfString.value "p" } ∧
      ((storeResource.Update ⟨updatedPlan TfString.unknown⟩
        ⟨[], some { testPlan with ID := TfString.value "p" }⟩
        (storeResource.Create ⟨testPlan⟩ ⟨[], none⟩ ⟨Store.mk [] [], []⟩).2).2.remote.findPrompt
          (UUID.mk "p")).map (fun q => q.Name) = some "test-prompt") ∧
    ((ackResource.Create ⟨testPlan⟩ ⟨[], none⟩ ⟨(), []⟩).1.State =
        some { testPlan with ID := TfString.value "7c1e" } ∧
      (ackResource.Update ⟨updatedPlan TfString.unknown⟩
        ⟨[], some { testPlan with ID := TfString.value "7c1e" }⟩
        (ackResource.Create ⟨testPlan⟩ ⟨[], none⟩ ⟨(), []⟩).2).1.Diagnostics = [] ∧
      (ackResource.Update ⟨updatedPlan TfString.unknown⟩
        ⟨[], some { testPlan with ID := TfString.value "7c1e" }⟩
        (ackResource.Create ⟨testPlan⟩ ⟨[], none⟩ ⟨(), []⟩).2).2.calls =
        [Call.CreatePrompt (CreatePromptJSONRequestBody.mk "test-prompt" "Test content"),
          Call.UpdatePrompt (UUID.mk "")
            (UpdatePromptJSONRequestBody.mk (some "updated-prompt") (some "Test content"))] ∧
      ((ackResource.Update ⟨updatedPlan TfString.unknown⟩
        ⟨[], some { testPlan with ID := TfString.value "7c1e" }⟩
        (ackResource.Create ⟨testPlan⟩ ⟨[], none⟩ ⟨(), []⟩).2).1.State.map
          (fun st => st.ID)) = some TfString.unknown ∧
      TfString.unknown ≠ TfString.value "7c1e") := by
  decide

/-! ## Rollback on the reference store -/

/-- Replacing a stored prompt by an image with the same identifier is seen by the next get. -/
theorem findPrompt_modifyPrompt (s : Store) (id : UUID) (f : Prompt → Prompt) (p : Prompt)
    (hf : ∀ q, (f q).Id = q.Id) (hp : s.findPrompt id = some p) :
    (s.modifyPrompt id f).findPrompt id = some (f p) := by
  obtain ⟨prompts, versions⟩ := s
  simp only [Store.findPrompt, Store.modifyPrompt] at hp ⊢
  induction prompts with
  | nil => simp at hp
  | cons q rest ih =>
    by_cases hq : q.Id = id
    · have hqp : q = p := by simpa [List.find?_cons, hq] using hp
      subst hqp
      have hfq : (f q).Id = id := (hf q).trans hq
      simp only [List.map_cons, List.find?_cons, if_pos hq, hfq, decide_True]
    · have hrest : rest.find? (fun p => decide (p.Id = id)) = some p := by
        simpa [List.find?_cons, hq] using hp
      simp only [List.map_cons, List.find?_cons, if_neg hq, if_false, hq, decide_False]
      exact ih hrest

/-- C2, as the code behaves: on the reference store, for a plan with version_id set that names
a stored prompt and one of its recorded versions, Update succeeds; afterwards the content of
the prompt in the remote store is the recorded content of that version, whatever name and
content the plan specifies, and the state Update writes is the plan, content included. -/
theorem update_rollback_reverts_remote (s : Store) (calls : List Call)
    (plan : ArchestraPromptResourceModel) (st0 : Option ArchestraPromptResourceModel)
    (p : Prompt) (v : StoredVersion)
    (hv : plan.VersionID.IsNull = false)
    (hp : s.findPrompt (UUID.ofString plan.ID.ValueString) = some p)
    (hver : s.findVersion (UUID.ofString plan.ID.ValueString)
      (UUID.ofString plan.VersionID.ValueString) = some v) :
    (storeResource.Update ⟨plan⟩ ⟨[], st0⟩ ⟨s, calls⟩).1.Diagnostics = [] ∧
    (storeResource.Update ⟨plan⟩ ⟨[], st0⟩ ⟨s, calls⟩).1.State = some plan ∧
    (storeResource.Update ⟨plan⟩ ⟨[], st0⟩ ⟨s, calls⟩).2.remote.findPrompt
      (UUID.ofString plan.ID.ValueString) = some { p with Content := v.Content } := by
  have hfind := findPrompt_modifyPrompt s (UUID.ofString plan.ID.ValueString)
    (fun q => { q with Content := v.Content }) p (fun _ => rfl) hp
  simp [ArchestraPromptResource.Update, ArchestraPromptResource.updateBranch, tfsdkGet, tfsdkSet,
    Response.AppendDiags, Response.SetState, World.issue, storeResource, storeClient,
    Store.rollbackPrompt, hv, hp, hver, hfind]

/-- Witness of `update_rollback_reverts_remote`: the rollback plan on the example store. -/
theorem update_rollback_reverts_remote_witness :
    (storeResource.Update ⟨rollbackPlan⟩ ⟨[], none⟩ ⟨exampleStore, []⟩).1.Diagnostics = [] ∧
    (storeResource.Update ⟨rollbackPlan⟩ ⟨[], none⟩ ⟨exampleStore, []⟩).1.State =
      some rollbackPlan ∧
    (storeResource.Update ⟨rollbackPlan⟩ ⟨[], none⟩ ⟨exampleStore, []⟩).2.remote.findPrompt
      (UUID.ofString rollbackPlan.ID.ValueString) =
      some { (Prompt.mk (UUID.mk "p1") "greeting" "second text" (some "Greets the user")
        ["chat"] (some "private")) with
        Content := (StoredVersion.mk (UUID.mk "v1") (UUID.mk "p1") 1
          (Time.mk "2024-01-01 10:00:00 +0000 UTC") "first text").Content } :=
  update_rollback_reverts_remote exampleStore [] rollbackPlan none
    (Prompt.mk (UUID.mk "p1") "greeting" "second text" (some "Greets the user") ["chat"]
      (some "private"))
    (StoredVersion.mk (UUID.mk "v1") (UUID.mk "p1") 1 (Time.mk "2024-01-01 10:00:00 +0000 UTC")
      "first text")
    (by decide) (by decide) (by decide)

/-- C2 as stated fails: on the example store the rollback of prompt "p1" to version "v1",
whose recorded content is "first text", answers 200 and the remote content becomes "first
text", but the content in the state Update writes is the plan's "third text". -/
theorem update_rollback_state_keeps_plan_content :
    (exampleStore.findVersion (UUID.mk "p1") (UUID.mk "v1")).map (fun v => v.Content) =
      some "first text" ∧
    (storeResource.Update ⟨rollbackPlan⟩ ⟨[], none⟩ ⟨exampleStore, []⟩).1.Diagnostics = [] ∧
    ((storeResource.Update ⟨rollbackPlan⟩ ⟨[], none⟩ ⟨exampleStore, []⟩).2.remote.findPrompt
      (UUID.mk "p1")).map (fun q => q.Content) = some "first text" ∧
    ((storeResource.Update ⟨rollbackPlan⟩ ⟨[], none⟩ ⟨exampleStore, []⟩).1.State.map
      (fun st => st.Content)) = some (TfString.value "third text") ∧
    ((storeResource.Update ⟨rollbackPlan⟩ ⟨[], none⟩ ⟨exampleStore, []⟩).1.State.map
      (fun st => st.Content)) ≠ some (TfString.StringValue "first text") := by
  decide

/-! ## Create followed by Read on the reference store -/

/-- Every identifier in use is at most as long as the longest one. -/
theorem length_le_longest (used : List UUID) (u : UUID) (hu : u ∈ used) :
    u.text.length ≤ (used.map (fun x => x.text.length)).foldr max 0 := by
  induction used with
  | nil => simp at hu
  | cons x rest ih =>
    simp only [List.map_cons, List.foldr_cons]
    rcases List.mem_cons.mp hu with h | h
    · subst h
      exact le_max_left _ _
    · exact le_trans (ih h) (le_max_right _ _)

/-- The identifier chosen by the store is not in use. -/
theorem freshId_not_mem (used : List UUID) : Store.freshId used ∉ used := by
  intro hmem
  have hle := length_le_longest used (Store.freshId used) hmem
  have hlen : (Store.freshId used).text.length =
      (used.map (fun x => x.text.length)).foldr max 0 + 1 := by
    simp only [Store.freshId, String.length, List.length_replicate]
  omega

/-- The store holds no prompt under the identifier it will assign next. -/
theorem findPrompt_freshId (s : Store) :
    s.findPrompt (Store.freshId (s.prompts.map (fun q => q.Id))) = none := by
  simp only [Store.findPrompt, List.find?_eq_none]
  intro q hq hdec
  have hid : q.Id = Store.freshId (s.prompts.map (fun q => q.Id)) := by simpa using hdec
  exact freshId_not_mem (s.prompts.map (fun q => q.Id)) (hid ▸ List.mem_map_of_mem _ hq)

/-- After create, get by the assigned identifier returns the created record. -/
theorem findPrompt_after_create (s : Store) (body : CreatePromptJSONRequestBody) :
    (Store.createPrompt body s).2.findPrompt (Store.freshId (s.prompts.map (fun q => q.Id))) =
      some (Prompt.mk (Store.freshId (s.prompts.map (fun q => q.Id))) body.Name body.Content
        none [] none) := by
  have hnone := findPrompt_freshId s
  simp only [Store.findPrompt] at hnone
  show List.find? _ (s.prompts ++ [_]) = _
  rw [List.find?_append, hnone]
  simp only [List.find?_cons, decide_True, Option.or, Option.none_or]

/-- C3. On the reference store, for every plan whose name and content are known strings (in
particular non-empty ones), Create issues the one CreatePrompt call, succeeds and writes the
plan with the identifier assigned by the server, an identifier under which the store held
nothing before. The Read that follows, from any state that carries that identifier (the state
written by Create, or one whose name and content are stale) and whatever the response state
holds, issues the one GetPrompt call for that identifier, succeeds, and writes a state with
the same id and with the name and content of the plan, fetched from the store. -/
theorem create_then_read_round_trip (s : Store) (calls : List Call)
    (plan prior : ArchestraPromptResourceModel)
    (st0 st1 : Option ArchestraPromptResourceModel) (n c : String)
    (hn : plan.Name = TfString.value n) (hc : plan.Content = TfString.value c)
    (hid : prior.ID =
      TfString.StringValue (Store.freshId (s.prompts.map (fun q => q.Id))).toStr) :
    (storeResource.Create ⟨plan⟩ ⟨[], st0⟩ ⟨s, calls⟩).1.Diagnostics = [] ∧
    (storeResource.Create ⟨plan⟩ ⟨[], st0⟩ ⟨s, calls⟩).1.State =
      some { plan with
        ID := TfString.StringValue (Store.freshId (s.prompts.map (fun q => q.Id))).toStr } ∧
    s.findPrompt (Store.freshId (s.prompts.map (fun q => q.Id))) = none ∧
    (storeResource.Create ⟨plan⟩ ⟨[], st0⟩ ⟨s, calls⟩).2.calls =
      calls ++ [Call.CreatePrompt (CreatePromptJSONRequestBody.mk n c)] ∧
    (storeResource.Read ⟨prior⟩ ⟨[], st1⟩
      (storeResource.Create ⟨plan⟩ ⟨[], st0⟩ ⟨s, calls⟩).2).1.Diagnostics = [] ∧
    (storeResource.Read ⟨prior⟩ ⟨[], st1⟩
      (storeResource.Create ⟨plan⟩ ⟨[], st0⟩ ⟨s, calls⟩).2).1.State =
      some { prior with Name := plan.Name, Content := plan.Content } ∧
    (storeResource.Read ⟨prior⟩ ⟨[], st1⟩
      (storeResource.Create ⟨plan⟩ ⟨[], st0⟩ ⟨s, calls⟩).2).2.calls =
      calls ++ [Call.CreatePrompt (CreatePromptJSONRequestBody.mk n c),
        Call.GetPrompt (Store.freshId (s.prompts.map (fun q => q.Id)))] := by
  have hfind := findPrompt_after_create s (CreatePromptJSONRequestBody.mk n c)
  simp only [Store.createPrompt] at hfind
  simp [ArchestraPromptResource.Create, ArchestraPromptResource.Read, tfsdkGet, tfsdkSet,
    Response.AppendDiags, Response.SetState, World.issue, storeResource, storeClient,
    Store.createPrompt, Store.getPrompt, TfString.StringValue, TfString.ValueString,
    UUID.ofString, UUID.toStr, hn, hc, hid, hfind, findPrompt_freshId]

/-- Witness of `create_then_read_round_trip`: the plan of the acceptance test on the example
store; Read starts from a state that carries the assigned identifier "ppp" with a stale name
and stale content, and from an empty response state. -/
theorem create_then_read_round_trip_witness :
    (storeResource.Create ⟨testPlan⟩ ⟨[], none⟩ ⟨exampleStore, []⟩).1.Diagnostics = [] ∧
    (storeResource.Create ⟨testPlan⟩ ⟨[], none⟩ ⟨exampleStore, []⟩).1.State =
      some { testPlan with
        ID := TfString.StringValue
          (Store.freshId (exampleStore.prompts.map (fun q => q.Id))).toStr } ∧
    exampleStore.findPrompt (Store.freshId (exampleStore.prompts.map (fun q => q.Id))) = none ∧
    (storeResource.Create ⟨testPlan⟩ ⟨[], none⟩ ⟨exampleStore, []⟩).2.calls =
      [] ++ [Call.CreatePrompt (CreatePromptJSONRequestBody.mk "test-prompt" "Test content")] ∧
    (storeResource.Read
      ⟨stalePrior⟩ ⟨[], none⟩
      (storeResource.Create ⟨testPlan⟩ ⟨[], none⟩ ⟨exampleStore, []⟩).2).1.Diagnostics = [] ∧
    (storeResource.Read
      ⟨stalePrior⟩ ⟨[], none⟩
      (storeResource.Create ⟨testPlan⟩ ⟨[], none⟩ ⟨exampleStore, []⟩).2).1.State =
      some { testPlan with ID := TfString.value "ppp" } ∧
    (storeResource.Read
      ⟨stalePrior⟩ ⟨[], none⟩
      (storeResource.Create ⟨testPlan⟩ ⟨[], none⟩ ⟨exampleStore, []⟩).2).2.calls =
      [] ++ [Call.CreatePrompt (CreatePromptJSONRequestBody.mk "test-prompt" "Test content"),
        Call.GetPrompt (Store.freshId (exampleStore.prompts.map (fun q => q.Id)))] :=
  create_then_read_round_trip exampleStore [] testPlan
    stalePrior
    none none "test-prompt" "Test content" rfl rfl (by decide)

/-! ## The prompt data source -/

/-- The loop finds the first of the elements that carry the wanted name. -/
theorem scan_eq_filter (name : String) (ps : List Prompt) :
    ArchestraPromptDataSource.scan name ps =
      match ps.filter (fun q => decide (q.Name = name)) with
      | [] => PromptValue.nil
      | q :: _ => PromptValue.element q := by
  induction ps with
  | nil => rfl
  | cons p rest ih =>
    by_cases hp : p.Name = name
    · simp [ArchestraPromptDataSource.scan, List.filter_cons, hp]
    · simp [ArchestraPromptDataSource.scan, List.filter_cons, hp, ih]

/-- The loop yields nil or a slice element, never a value of the placeholder struct. -/
theorem assertPlaceholder_scan (name : String) (ps : List Prompt) :
    (ArchestraPromptDataSource.scan name ps).assertPlaceholder = none := by
  induction ps with
  | nil => rfl
  | cons p rest ih =>
    by_cases hp : p.Name = name
    · simp [ArchestraPromptDataSource.scan, hp, PromptValue.assertPlaceholder]
    · simpa [ArchestraPromptDataSource.scan, hp] using ih

/-- C6. With id null and name set, when no prompt of the list returned under JSON200 has
exactly the configured name (the empty list included), Read adds the one "Not Found" error
and leaves the state as it was: nothing is written. -/
theorem datasource_read_not_found {σ : Type} (d : ArchestraPromptDataSource σ)
    (cfg : ArchestraPromptDataSourceModel) (st0 : Option ArchestraPromptDataSourceModel)
    (w : World σ) (resp : GetPromptsResponse) (ps : List Prompt)
    (hid : cfg.ID.IsNull = true) (hname : cfg.Name.IsNull = false)
    (hcall : (d.client.GetPromptsWithResponse w.remote).1 = Except.ok resp)
    (hjson : resp.JSON200 = some ps)
    (hnone : ∀ q ∈ ps, q.Name ≠ cfg.Name.ValueString) :
    (d.Read ⟨cfg⟩ ⟨[], st0⟩ w).1.Diagnostics =
      [Diagnostic.mk Severity.error "Not Found"
        ("Prompt with name '" ++ cfg.Name.ValueString ++ "' not found")] ∧
    (d.Read ⟨cfg⟩ ⟨[], st0⟩ w).1.State = st0 := by
  have hfilter : ps.filter (fun q => decide (q.Name = cfg.Name.ValueString)) = [] := by
    rw [List.filter_eq_nil_iff]
    intro q hq
    simpa using hnone q hq
  have hscan := scan_eq_filter cfg.Name.ValueString ps
  rw [hfilter] at hscan
  simp [ArchestraPromptDataSource.Read, ArchestraPromptDataSource.lookup, tfsdkGet,
    Response.AppendDiags, Response.AddError, World.issue, hid, hname, hcall, hjson, hscan]

/-- Witness of `datasource_read_not_found`: the example store has "greeting" and is asked for
"Greeting". -/
theorem datasource_read_not_found_witness :
    (storeDataSource.Read ⟨configByName "Greeting"⟩ ⟨[], none⟩ ⟨exampleStore, []⟩).1.Diagnostics
      = [Diagnostic.mk Severity.error "Not Found"
        ("Prompt with name '" ++ (configByName "Greeting").Name.ValueString ++ "' not found")] ∧
    (storeDataSource.Read ⟨configByName "Greeting"⟩ ⟨[], none⟩ ⟨exampleStore, []⟩).1.State =
      none :=
  datasource_read_not_found storeDataSource (configByName "Greeting") none ⟨exampleStore, []⟩
    (GetPromptsResponse.mk 200 (some exampleStore.prompts)) exampleStore.prompts
    (by decide) (by decide) rfl rfl (by decide)

/-- C7. Read of the prompt data source adds an "Invalid Configuration" error if and only if
both id and name are null in the configuration; in that case that error is its only
diagnostic, it issues no call, leaves the remote as it is and leaves the state as it was. -/
theorem datasource_invalid_configuration_iff {σ : Type} (d : ArchestraPromptDataSource σ)
    (cfg : ArchestraPromptDataSourceModel) (st0 : Option ArchestraPromptDataSourceModel)
    (w : World σ) :
    ((∃ x ∈ (d.Read ⟨cfg⟩ ⟨[], st0⟩ w).1.Diagnostics, x.summary = "Invalid Configuration") ↔
      (cfg.ID.IsNull = true ∧ cfg.Name.IsNull = true)) ∧
    (cfg.ID.IsNull = true ∧ cfg.Name.IsNull = true →
      (d.Read ⟨cfg⟩ ⟨[], st0⟩ w).1.Diagnostics =
        [Diagnostic.mk Severity.error "Invalid Configuration"
          "Either 'id' or 'name' must be provided"] ∧
      (d.Read ⟨cfg⟩ ⟨[], st0⟩ w).1.State = st0 ∧
      (d.Read ⟨cfg⟩ ⟨[], st0⟩ w).2.calls = w.calls ∧
      (d.Read ⟨cfg⟩ ⟨[], st0⟩ w).2.remote = w.remote) := by
  by_cases hid : cfg.ID.IsNull = true
  · by_cases hname : cfg.Name.IsNull = true
    · simp [ArchestraPromptDataSource.Read, ArchestraPromptDataSource.lookup, tfsdkGet,
        Response.AppendDiags, Response.AddError, hid, hname]
    · cases h : (d.client.GetPromptsWithResponse w.remote).1 with
      | error err =>
        simp [ArchestraPromptDataSource.Read, ArchestraPromptDataSource.lookup, tfsdkGet,
          Response.AppendDiags, Response.AddError, World.issue, hid, hname, h]
      | ok resp =>
        cases hj : resp.JSON200 with
        | none =>
          simp [ArchestraPromptDataSource.Read, ArchestraPromptDataSource.lookup, tfsdkGet,
            Response.AppendDiags, Response.AddError, World.issue, hid, hname, h, hj]
        | some ps =>
          cases hsc : ArchestraPromptDataSource.scan cfg.Name.ValueString ps <;>
          simp [ArchestraPromptDataSource.Read, ArchestraPromptDataSource.lookup, tfsdkGet,
            tfsdkSet, Response.AppendDiags, Response.AddError, Response.SetState, World.issue,
            hid, hname, h, hj, hsc]
  · cases h : (d.client.GetPromptWithResponse (UUID.ofString cfg.ID.ValueString) w.remote).1 with
    | error err =>
      simp [ArchestraPromptDataSource.Read, ArchestraPromptDataSource.lookup, tfsdkGet,
        Response.AppendDiags, Response.AddError, World.issue, hid, h]
    | ok resp =>
      cases hj : resp.JSON200 <;>
      simp [ArchestraPromptDataSource.Read, ArchestraPromptDataSource.lookup, tfsdkGet,
        tfsdkSet, Response.AppendDiags, Response.AddError, Response.SetState, World.issue,
        hid, h, hj]

/-- Witness of the missing-key rule: a configuration with id and name null on the example
store gets the one "Invalid Configuration" error, no call is issued and no state written. -/
theorem datasource_invalid_configuration_iff_witness :
    (storeDataSource.Read ⟨ArchestraPromptDataSourceModel.mk TfString.null TfString.null
        TfString.null TfString.null TfList.null TfString.null⟩ ⟨[], none⟩
        ⟨exampleStore, []⟩).1.Diagnostics =
      [Diagnostic.mk Severity.error "Invalid Configuration"
        "Either 'id' or 'name' must be provided"] ∧
    (storeDataSource.Read ⟨ArchestraPromptDataSourceModel.mk TfString.null TfString.null
        TfString.null TfString.null TfList.null TfString.null⟩ ⟨[], none⟩
        ⟨exampleStore, []⟩).1.State = none ∧
    (storeDataSource.Read ⟨ArchestraPromptDataSourceModel.mk TfString.null TfString.null
        TfString.null TfString.null TfList.null TfString.null⟩ ⟨[], none⟩
        ⟨exampleStore, []⟩).2.calls = [] ∧
    (storeDataSource.Read ⟨ArchestraPromptDataSourceModel.mk TfString.null TfString.null
        TfString.null TfString.null TfList.null TfString.null⟩ ⟨[], none⟩
        ⟨exampleStore, []⟩).2.remote = exampleStore :=
  (datasource_invalid_configuration_iff storeDataSource
    (ArchestraPromptDataSourceModel.mk TfString.null TfString.null TfString.null TfString.null
      TfList.null TfString.null) none ⟨exampleStore, []⟩).2 ⟨rfl, rfl⟩

/-! ## The prompt versions data source -/

/-- A value inside the signed 64-bit range is left as it is by the conversion. -/
theorem int64_of_in_range (x : Int) (hlo : -2 ^ 63 ≤ x) (hhi : x < 2 ^ 63) : int64 x = x := by
  unfold int64
  omega

/-- The loop appends one element per version: it computes the image of the list, in order. -/
theorem versionList_eq_map (vs : List PromptVersion) :
    ArchestraPromptVersionsDataSource.versionList vs =
      vs.map ArchestraPromptVersionsDataSource.versionModel := by
  have hgen : ∀ (init : List PromptVersionModel),
      vs.foldl (fun acc v => acc ++ [ArchestraPromptVersionsDataSource.versionModel v]) init =
        init ++ vs.map ArchestraPromptVersionsDataSource.versionModel := by
    induction vs with
    | nil => intro init; simp
    | cons v rest ih => intro init; simp [List.foldl_cons, ih]
  simpa [ArchestraPromptVersionsDataSource.versionList] using hgen []

/-- The elements of the list value built from a slice are the elements of the slice. -/
theorem Elements_ListValueFrom {α : Type} (l : List α) :
    (TfList.ListValueFrom l).Elements = l := by
  cases l <;> rfl

/-- C9. When the remote returns a list of versions under JSON200, Read of the versions data
source succeeds and writes a state whose versions have the same length as the returned list
and whose element i is the id, version number and creation timestamp of the i-th returned
version, id and timestamp rendered as strings and the version number converted to a 64-bit
integer (unchanged when it is in the 64-bit range): the order of the remote is kept, nothing
is sorted, filtered or deduplicated. -/
theorem versions_read_preserves_order {σ : Type} (d : ArchestraPromptVersionsDataSource σ)
    (cfg : ArchestraPromptVersionsDataSourceModel)
    (st0 : Option ArchestraPromptVersionsDataSourceModel) (w : World σ)
    (resp : GetPromptVersionsResponse) (vs : List PromptVersion)
    (hcall : (d.client.GetPromptVersionsWithResponse (UUID.ofString cfg.PromptID.ValueString)
      w.remote).1 = Except.ok resp)
    (hjson : resp.JSON200 = some vs) :
    (d.Read ⟨cfg⟩ ⟨[], st0⟩ w).1.Diagnostics = [] ∧
    ∃ st, (d.Read ⟨cfg⟩ ⟨[], st0⟩ w).1.State = some st ∧
      st.PromptID = cfg.PromptID ∧
      st.Versions.Elements.length = vs.length ∧
      (∀ (i : Nat) (hi : i < vs.length), st.Versions.Elements[i]? =
        some (PromptVersionModel.mk (TfString.StringValue (vs.get ⟨i, hi⟩).Id.toStr)
          (TfInt64.Int64Value (int64 (vs.get ⟨i, hi⟩).Version))
          (TfString.StringValue (vs.get ⟨i, hi⟩).CreatedAt.toStr))) ∧
      (∀ v ∈ vs, -2 ^ 63 ≤ v.Version → v.Version < 2 ^ 63 → int64 v.Version = v.Version) := by
  refine ⟨?_, ArchestraPromptVersionsDataSourceModel.mk cfg.PromptID
    (TfList.ListValueFrom (ArchestraPromptVersionsDataSource.versionList vs)), ?_, rfl, ?_, ?_, ?_⟩
  · simp [ArchestraPromptVersionsDataSource.Read, tfsdkGet, tfsdkSet, Response.AppendDiags,
      Response.SetState, World.issue, hcall, hjson]
  · simp [ArchestraPromptVersionsDataSource.Read, tfsdkGet, tfsdkSet, Response.AppendDiags,
      Response.SetState, World.issue, hcall, hjson]
  · simp [Elements_ListValueFrom, versionList_eq_map]
  · intro i hi
    simp [Elements_ListValueFrom, versionList_eq_map, List.getElem?_map,
      List.getElem?_eq_getElem hi, ArchestraPromptVersionsDataSource.versionModel]
  · intro v _ hlo hhi
    exact int64_of_in_range v.Version hlo hhi

/-- Witness of `versions_read_preserves_order`: the versions of prompt "p1" in the example
store, which the store returns newest first. -/
theorem versions_read_preserves_order_witness :
    (storeVersionsDataSource.Read ⟨ArchestraPromptVersionsDataSourceModel.mk
      (TfString.value "p1") TfList.null⟩ ⟨[], none⟩ ⟨exampleStore, []⟩).1.Diagnostics = [] ∧
    ∃ st, (storeVersionsDataSource.Read ⟨ArchestraPromptVersionsDataSourceModel.mk
        (TfString.value "p1") TfList.null⟩ ⟨[], none⟩ ⟨exampleStore, []⟩).1.State = some st ∧
      st.PromptID = TfString.value "p1" ∧
      st.Versions.Elements.length =
        [PromptVersion.mk (UUID.mk "v2") 2 (Time.mk "2024-02-01 10:00:00 +0000 UTC"),
          PromptVersion.mk (UUID.mk "v1") 1 (Time.mk "2024-01-01 10:00:00 +0000 UTC")].length ∧
      (∀ (i : Nat) (hi : i <
          [PromptVersion.mk (UUID.mk "v2") 2 (Time.mk "2024-02-01 10:00:00 +0000 UTC"),
            PromptVersion.mk (UUID.mk "v1") 1 (Time.mk "2024-01-01 10:00:00 +0000 UTC")].length),
        st.Versions.Elements[i]? =
        some (PromptVersionModel.mk
          (TfString.StringValue
            ([PromptVersion.mk (UUID.mk "v2") 2 (Time.mk "2024-02-01 10:00:00 +0000 UTC"),
              PromptVersion.mk (UUID.mk "v1") 1
                (Time.mk "2024-01-01 10:00:00 +0000 UTC")].get ⟨i, hi⟩).Id.toStr)
          (TfInt64.Int64Value (int64
            ([PromptVersion.mk (UUID.mk "v2") 2 (Time.mk "2024-02-01 10:00:00 +0000 UTC"),
              PromptVersion.mk (UUID.mk "v1") 1
                (Time.mk "2024-01-01 10:00:00 +0000 UTC")].get ⟨i, hi⟩).Version))
          (TfString.StringValue
            ([PromptVersion.mk (UUID.mk "v2") 2 (Time.mk "2024-02-01 10:00:00 +0000 UTC"),
              PromptVersion.mk (UUID.mk "v1") 1
                (Time.mk "2024-01-01 10:00:00 +0000 UTC")].get ⟨i, hi⟩).CreatedAt.toStr))) ∧
      (∀ v ∈ [PromptVersion.mk (UUID.mk "v2") 2 (Time.mk "2024-02-01 10:00:00 +0000 UTC"),
          PromptVersion.mk (UUID.mk "v1") 1 (Time.mk "2024-01-01 10:00:00 +0000 UTC")],
        -2 ^ 63 ≤ v.Version → v.Version < 2 ^ 63 → int64 v.Version = v.Version) :=
  versions_read_preserves_order storeVersionsDataSource
    (ArchestraPromptVersionsDataSourceModel.mk (TfString.value "p1") TfList.null) none
    ⟨exampleStore, []⟩
    (GetPromptVersionsResponse.mk 200
      (some [PromptVersion.mk (UUID.mk "v2") 2 (Time.mk "2024-02-01 10:00:00 +0000 UTC"),
        PromptVersion.mk (UUID.mk "v1") 1 (Time.mk "2024-01-01 10:00:00 +0000 UTC")]))
    [PromptVersion.mk (UUID.mk "v2") 2 (Time.mk "2024-02-01 10:00:00 +0000 UTC"),
      PromptVersion.mk (UUID.mk "v1") 1 (Time.mk "2024-01-01 10:00:00 +0000 UTC")]
    rfl rfl

end Archestra
